import Mathlib

/-!
# Verification of the Pages status-aggregation and rate-limited proxy layer

Shallow embedding of the serverless handlers in `supabase/functions/`
(`list-pages-sites`, `get-pages-info`, `enable-github-pages`) and the shared
rate limiter (`_shared/rate-limiter.ts`).  Machine time (`Date.now()`) is
modelled as a `Nat` of milliseconds; the in-memory `Map` of the rate limiter
is an association list; upstream HTTP interactions are supplied as
environment data so the handlers become pure functions that also report
which upstream probes they performed.
-/

namespace PagesProxy

/-! ## Rate limiter (`_shared/rate-limiter.ts`) -/

/-- `RateLimitConfig` from rate-limiter.ts: `{ maxRequests, windowMs }`. -/
structure RateLimitConfig where
  maxRequests : Nat
  windowMs : Nat
deriving DecidableEq, Repr

/-- `DEFAULT_RATE_LIMIT`: 100 requests per 60000 ms window. -/
def DEFAULT_RATE_LIMIT : RateLimitConfig := ⟨100, 60000⟩

/-- One value of the `requestCounts` map: `{ count, resetAt }`. -/
structure RLEntry where
  count : Nat
  resetAt : Nat
deriving DecidableEq, Repr

/-- The in-memory `requestCounts : Map<string, {count, resetAt}>`,
as an association list keyed by user id. -/
def RLStore : Type := List (String × RLEntry)

instance : DecidableEq RLStore := by
  unfold RLStore
  infer_instance

/-- `requestCounts.get(key)`. -/
def rlLookup : RLStore → String → Option RLEntry
  | [], _ => none
  | (k, v) :: rest, key => if k = key then some v else rlLookup rest key

/-- `requestCounts.set(key, value)` (replaces an existing binding). -/
def rlInsert : RLStore → String → RLEntry → RLStore
  | [], key, v => [(key, v)]
  | (k, w) :: rest, key, v =>
      if k = key then (k, v) :: rest else (k, w) :: rlInsert rest key v

/-- Return value of `checkRateLimit`: `{ allowed, remaining, resetAt }`. -/
structure RateLimitResult where
  allowed : Bool
  remaining : Nat
  resetAt : Nat
deriving DecidableEq, Repr

/-- `checkRateLimit(userId, config)` from rate-liter.ts, with the mutable map
and `Date.now()` made explicit.  If no window exists or the stored window has
expired (`now >= resetAt`) a fresh `{count: 0, resetAt: now + windowMs}` window
is installed; then the count is incremented unconditionally;
`allowed = count <= maxRequests`, `remaining = max(0, maxRequests - count)`
(`Nat` subtraction is already truncated at 0). -/
def checkRateLimit (store : RLStore) (userId : String) (now : Nat)
    (config : RateLimitConfig) : RateLimitResult × RLStore :=
  let base : RLEntry :=
    match rlLookup store userId with
    | some d => if d.resetAt ≤ now then ⟨0, now + config.windowMs⟩ else d
    | none => ⟨0, now + config.windowMs⟩
  let updated : RLEntry := ⟨base.count + 1, base.resetAt⟩
  let allowed : Bool := decide (updated.count ≤ config.maxRequests)
  let remaining : Nat := config.maxRequests - updated.count
  (⟨allowed, remaining, updated.resetAt⟩, rlInsert store userId updated)

/-- `cleanupRateLimitStore()`: delete every entry whose `resetAt` has passed. -/
def cleanupRateLimitStore (store : RLStore) (now : Nat) : RLStore :=
  store.filter (fun kv => decide (now < kv.2.resetAt))

/-- Sequencing several `checkRateLimit` calls for one user at the given
times, threading the store. -/
def runCalls (uid : String) (cfg : RateLimitConfig) (store : RLStore) :
    List Nat → RLStore
  | [] => store
  | t :: ts => runCalls uid cfg (checkRateLimit store uid t cfg).2 ts

/-! ## Upstream error sanitizer

The file `_shared/error-sanitizer.ts` is imported by every handler but its
source is not part of this tree; only its call sites and the spec describe
it. -/

/-- `SanitizedError`: the only error shape returned to a caller. -/
structure SanitizedError where
  status : Nat
  message : String
deriving DecidableEq, Repr

/-- Modelled from the spec: `sanitizeGitHubError` of `_shared/error-sanitizer.ts`
(file absent from the tree).  Per §4.2, upstream status codes map to a fixed
set of outward statuses with generic messages — 401/403 → 403 "insufficient
permission", 404 → 404 "not found", 422 → 400 "invalid request", 5xx or
unmapped → 502 "upstream error" — and the raw body is never forwarded. -/
def sanitizeGitHubError (status : Nat) (_rawBody : String) : SanitizedError :=
  if status = 401 ∨ status = 403 then
    ⟨403, "Insufficient permissions for this operation"⟩
  else if status = 404 then
    ⟨404, "Resource not found"⟩
  else if status = 422 then
    ⟨400, "Invalid request"⟩
  else
    ⟨502, "Upstream error"⟩

/-! ## Pages data model -/

/-- The `source` object of a GitHub Pages API response
(`pagesInfo.source`), fields possibly absent. -/
structure PagesSource where
  branch : Option String
  path : Option String
deriving DecidableEq, Repr

/-- The JSON body a successful Pages probe parses
(only the fields the handlers read). -/
structure PagesInfo where
  source : Option PagesSource
  html_url : Option String
  status : Option String
  built_at : Option String
  updated_at : Option String
deriving DecidableEq, Repr

/-- JavaScript `a || d` for a string-or-undefined left operand and a string
default: `undefined` and `""` are falsy. -/
def jsOrD (a : Option String) (d : String) : String :=
  match a with
  | some s => if s = "" then d else s
  | none => d

/-- JavaScript `a || b` where both operands are string-or-undefined. -/
def jsOr (a b : Option String) : Option String :=
  match a with
  | some s => if s = "" then b else some s
  | none => b

/-- `Response.ok`: status in the range 200–299. -/
def respOk (status : Nat) : Bool := 200 ≤ status && status < 300

/-- Nested `source` of a `PagesSite` summary. -/
structure SiteSource where
  branch : String
  path : String
deriving DecidableEq, Repr

/-- `PagesSite` from list-pages-sites/index.ts. -/
structure PagesSite where
  repository : String
  owner : String
  branch : String
  url : String
  status : String
  source : SiteSource
  updated_at : Option String
deriving DecidableEq, Repr

/-- The `livePagesSites.push({...})` projection of one enabled repository
(list-pages-sites/index.ts, loop body). -/
def mkPagesSite (username repoName : String) (info : PagesInfo) : PagesSite :=
  { repository := repoName
    owner := username
    branch := jsOrD (info.source.bind PagesSource.branch) "unknown"
    url := jsOrD info.html_url
      ("https://" ++ username ++ ".github.io/" ++ repoName)
    status := jsOrD info.status "unknown"
    source :=
      { branch := jsOrD (info.source.bind PagesSource.branch) "unknown"
        path := jsOrD (info.source.bind PagesSource.path) "/" }
    updated_at := jsOr info.built_at info.updated_at }

/-- Outcome of one `fetch` of a repository's Pages endpoint: either the
fetch/parse threw, or it produced a response with the given status whose
JSON body (when read) is `info`. -/
inductive ProbeOutcome where
  | thrown
  | resp (status : Nat) (info : PagesInfo)
deriving DecidableEq, Repr

/-! ## Fleet scan loop (list-pages-sites/index.ts, lines 121–161)

`for (const repo of repos) { try { fetch .../pages; if 404 continue;
if ok push summary } catch { log } }`.  The scan returns both the collected
summaries and the trace of repositories whose Pages endpoint it fetched, in
loop order.  A non-ok, non-404 response matches no branch of the loop body
and is skipped; a thrown fetch is caught and skipped. -/
def scanRepos (username : String) (probes : String → ProbeOutcome) :
    List String → List PagesSite × List String
  | [] => ([], [])
  | r :: rest =>
    let o := probes r
    let tail := scanRepos username probes rest
    match o with
    | .thrown => (tail.1, r :: tail.2)
    | .resp status info =>
      if status = 404 then (tail.1, r :: tail.2)
      else if respOk status then
        (mkPagesSite username r info :: tail.1, r :: tail.2)
      else (tail.1, r :: tail.2)

/-! ## list-pages-sites handler -/

/-- Response body shapes of the list-pages-sites handler. -/
inductive LPSBody where
  | invalidInput
  | unauthorized
  | rateLimited
  | profileNotFound
  | errMsg (msg : String)
  | sites (l : List PagesSite)
  | internal
deriving DecidableEq, Repr

/-- An HTTP response of the list-pages-sites handler. -/
structure LPSResponse where
  status : Nat
  body : LPSBody
deriving DecidableEq, Repr

/-- The request-scoped environment of one list-pages-sites invocation:
the parsed body field, the authenticated user, the wall clock, the profile
row, and the upstream behaviour (repository listing and per-repository
probe outcomes). -/
structure LPSEnv where
  bodyOk : Bool
  provider_token : Option String
  authUser : Option String
  now : Nat
  profile : Option String
  reposResult : Except (Nat × String) (List String)
  probes : String → ProbeOutcome

/-- Result of one list-pages-sites invocation: the HTTP response, the
rate-limit store after the call, and the trace of repositories probed. -/
structure LPSOutcome where
  resp : LPSResponse
  store : RLStore
  probed : List String

/-- The `Deno.serve` handler of list-pages-sites/index.ts (POST path).
`req.json()` throwing is the outer catch (500); zod validation requires a
`provider_token` string of length ≥ 1 (400); missing auth user → 401;
rate limit exceeded → 429; missing or empty `github_username` → 403;
a failed repository listing → the sanitized error; otherwise the fleet
scan runs and the handler returns 200 with the collected sites. -/
def listPagesSites (env : LPSEnv) (store : RLStore) : LPSOutcome :=
  if !env.bodyOk then ⟨⟨500, .internal⟩, store, []⟩
  else
    match env.provider_token with
    | none => ⟨⟨400, .invalidInput⟩, store, []⟩
    | some tok =>
      if tok.length = 0 then ⟨⟨400, .invalidInput⟩, store, []⟩
      else
        match env.authUser with
        | none => ⟨⟨401, .unauthorized⟩, store, []⟩
        | some uid =>
          let rl := checkRateLimit store uid env.now DEFAULT_RATE_LIMIT
          if !rl.1.allowed then ⟨⟨429, .rateLimited⟩, rl.2, []⟩
          else
            match env.profile with
            | none => ⟨⟨403, .profileNotFound⟩, rl.2, []⟩
            | some username =>
              if username = "" then ⟨⟨403, .profileNotFound⟩, rl.2, []⟩
              else
                match env.reposResult with
                | .error (st, raw) =>
                  let s := sanitizeGitHubError st raw
                  ⟨⟨s.status, .errMsg s.message⟩, rl.2, []⟩
                | .ok repos =>
                  let scan := scanRepos username env.probes repos
                  ⟨⟨200, .sites scan.1⟩, rl.2, scan.2⟩

/-! ## get-pages-info handler -/

/-- Outcome of the single upstream `fetch` a handler performs: thrown, or a
response with a status, raw text body and parsed JSON body. -/
inductive UpstreamResp where
  | thrown
  | resp (status : Nat) (raw : String) (info : PagesInfo)
deriving DecidableEq, Repr

/-- Response body shapes of the get-pages-info handler. -/
inductive GPIBody where
  | invalidInput
  | unauthorized
  | rateLimited
  | profileNotFound
  | notOwner
  | errMsg (msg : String)
  | notEnabled
  | enabled (url status : Option String) (source : Option PagesSource)
  | internal
deriving DecidableEq, Repr

/-- An HTTP response of the get-pages-info handler. -/
structure GPIResponse where
  status : Nat
  body : GPIBody
deriving DecidableEq, Repr

/-- Environment of one get-pages-info invocation.  `valid` is the outcome of
the zod schema check (`ownerField` / `repoField` / `provider_token`);
when it holds, `owner` is the validated owner field of the request. -/
structure GPIEnv where
  bodyOk : Bool
  valid : Bool
  owner : String
  authUser : Option String
  now : Nat
  profile : Option String
  upstream : UpstreamResp

/-- Result of one get-pages-info invocation; `upstreamCalled` records
whether the handler issued its GitHub API fetch. -/
structure GPIOutcome where
  resp : GPIResponse
  store : RLStore
  upstreamCalled : Bool

/-- The `Deno.serve` handler of get-pages-info/index.ts (POST path).
After validation, auth, rate limiting, profile resolution and the
ownership check, the upstream Pages endpoint is fetched: 404 → 200
`{enabled: false}`; other non-ok → sanitized error; ok → 200 with the
Pages info; a thrown fetch → the outer catch (500). -/
def getPagesInfo (env : GPIEnv) (store : RLStore) : GPIOutcome :=
  if !env.bodyOk then ⟨⟨500, .internal⟩, store, false⟩
  else if !env.valid then ⟨⟨400, .invalidInput⟩, store, false⟩
  else
    match env.authUser with
    | none => ⟨⟨401, .unauthorized⟩, store, false⟩
    | some uid =>
      let rl := checkRateLimit store uid env.now DEFAULT_RATE_LIMIT
      if !rl.1.allowed then ⟨⟨429, .rateLimited⟩, rl.2, false⟩
      else
        match env.profile with
        | none => ⟨⟨403, .profileNotFound⟩, rl.2, false⟩
        | some username =>
          if username = "" then ⟨⟨403, .profileNotFound⟩, rl.2, false⟩
          else if env.owner ≠ username then ⟨⟨403, .notOwner⟩, rl.2, false⟩
          else
            match env.upstream with
            | .thrown => ⟨⟨500, .internal⟩, rl.2, true⟩
            | .resp status raw info =>
              if status = 404 then ⟨⟨200, .notEnabled⟩, rl.2, true⟩
              else if !respOk status then
                let s := sanitizeGitHubError status raw
                ⟨⟨s.status, .errMsg s.message⟩, rl.2, true⟩
              else
                ⟨⟨200, .enabled info.html_url info.status info.source⟩,
                  rl.2, true⟩

/-! ## enable-github-pages handler -/

/-- Response body shapes of the enable-github-pages handler. -/
inductive EGPBody where
  | invalidInput
  | unauthorized
  | rateLimited
  | profileNotFound
  | notOwner
  | errMsg (msg : String)
  | success (url status : Option String)
  | internal
deriving DecidableEq, Repr

/-- An HTTP response of the enable-github-pages handler. -/
structure EGPResponse where
  status : Nat
  body : EGPBody
deriving DecidableEq, Repr

/-- Environment of one enable-github-pages invocation.  `valid` is the
outcome of the zod schema check (`owner`/`repo`/`branch`/`path`/token);
`owner` is the validated owner field. -/
structure EGPEnv where
  bodyOk : Bool
  valid : Bool
  owner : String
  authUser : Option String
  now : Nat
  profile : Option String
  upstream : UpstreamResp

/-- Result of one enable-github-pages invocation; `upstreamCalled` records
whether the handler issued its GitHub API POST. -/
structure EGPOutcome where
  resp : EGPResponse
  store : RLStore
  upstreamCalled : Bool

/-- The `Deno.serve` handler of enable-github-pages (second file of
list-pages-sites/index.ts, lines 196–324): validation, auth, rate limiting,
profile resolution, ownership check, then the POST to the Pages endpoint;
non-ok → sanitized error; ok → 200 success body. -/
def enableGitHubPages (env : EGPEnv) (store : RLStore) : EGPOutcome :=
  if !env.bodyOk then ⟨⟨500, .internal⟩, store, false⟩
  else if !env.valid then ⟨⟨400, .invalidInput⟩, store, false⟩
  else
    match env.authUser with
    | none => ⟨⟨401, .unauthorized⟩, store, false⟩
    | some uid =>
      let rl := checkRateLimit store uid env.now DEFAULT_RATE_LIMIT
      if !rl.1.allowed then ⟨⟨429, .rateLimited⟩, rl.2, false⟩
      else
        match env.profile with
        | none => ⟨⟨403, .profileNotFound⟩, rl.2, false⟩
        | some username =>
          if username = "" then ⟨⟨403, .profileNotFound⟩, rl.2, false⟩
          else if env.owner ≠ username then ⟨⟨403, .notOwner⟩, rl.2, false⟩
          else
            match env.upstream with
            | .thrown => ⟨⟨500, .internal⟩, rl.2, true⟩
            | .resp status raw info =>
              if !respOk status then
                let s := sanitizeGitHubError status raw
                ⟨⟨s.status, .errMsg s.message⟩, rl.2, true⟩
              else
                ⟨⟨200, .success info.html_url info.status⟩, rl.2, true⟩

/-! ## Rate limiter lemmas -/

/-- Looking up the key just inserted yields the inserted entry. -/
theorem rlLookup_rlInsert_self (store : RLStore) (key : String) (v : RLEntry) :
    rlLookup (rlInsert store key v) key = some v := by
  induction store with
  | nil => simp [rlInsert, rlLookup]
  | cons kv rest ih =>
    by_cases h : kv.1 = key
    · simp [rlInsert, rlLookup, h]
    · simp [rlInsert, rlLookup, h, ih]

/-- Inserting at one key leaves every other key's binding unchanged. -/
theorem rlLookup_rlInsert_ne (store : RLStore) (key : String) (v : RLEntry)
    (key' : String) (hne : key' ≠ key) :
    rlLookup (rlInsert store key v) key' = rlLookup store key' := by
  have hkk : key ≠ key' := fun h => hne h.symm
  induction store with
  | nil => simp [rlInsert, rlLookup, hkk]
  | cons kv rest ih =>
    by_cases h : kv.1 = key
    · simp [rlInsert, rlLookup, h, hkk]
    · simp [rlInsert, rlLookup, h, hne, ih]

/-- A call inside a live window increments the count, keeps `resetAt`, and
reports `allowed`/`remaining` from the incremented count. -/
theorem checkRateLimit_inWindow (store : RLStore) (uid : String) (now : Nat)
    (cfg : RateLimitConfig) (e : RLEntry)
    (he : rlLookup store uid = some e) (hin : now < e.resetAt) :
    checkRateLimit store uid now cfg =
      (⟨decide (e.count + 1 ≤ cfg.maxRequests),
        cfg.maxRequests - (e.count + 1), e.resetAt⟩,
       rlInsert store uid ⟨e.count + 1, e.resetAt⟩) := by
  unfold checkRateLimit
  rw [he]
  simp [Nat.not_le.mpr hin]

/-- A call with no stored window creates a fresh one with count 1. -/
theorem checkRateLimit_none (store : RLStore) (uid : String) (now : Nat)
    (cfg : RateLimitConfig) (he : rlLookup store uid = none) :
    checkRateLimit store uid now cfg =
      (⟨decide (1 ≤ cfg.maxRequests), cfg.maxRequests - 1, now + cfg.windowMs⟩,
       rlInsert store uid ⟨1, now + cfg.windowMs⟩) := by
  unfold checkRateLimit
  rw [he]

/-- A call at or after the stored window's `resetAt` replaces it with a
fresh window whose count is 1. -/
theorem checkRateLimit_expired (store : RLStore) (uid : String) (now : Nat)
    (cfg : RateLimitConfig) (e : RLEntry)
    (he : rlLookup store uid = some e) (hexp : e.resetAt ≤ now) :
    checkRateLimit store uid now cfg =
      (⟨decide (1 ≤ cfg.maxRequests), cfg.maxRequests - 1, now + cfg.windowMs⟩,
       rlInsert store uid ⟨1, now + cfg.windowMs⟩) := by
  unfold checkRateLimit
  rw [he]
  simp [hexp]

/-- Running a batch of in-window calls adds their number to the stored
count and keeps `resetAt`. -/
theorem runCalls_entry (uid : String) (cfg : RateLimitConfig) (r : Nat)
    (ts : List Nat) :
    ∀ (store : RLStore) (k : Nat),
      rlLookup store uid = some ⟨k, r⟩ →
      (∀ t ∈ ts, t < r) →
      rlLookup (runCalls uid cfg store ts) uid = some ⟨k + ts.length, r⟩ := by
  induction ts with
  | nil => intro store k h _; simpa using h
  | cons t ts ih =>
    intro store k h hts
    have ht : t < r := hts t (by simp)
    rw [runCalls, checkRateLimit_inWindow store uid t cfg ⟨k, r⟩ h ht]
    have hnext : rlLookup (rlInsert store uid ⟨k + 1, r⟩) uid =
        some ⟨k + 1, r⟩ := rlLookup_rlInsert_self store uid ⟨k + 1, r⟩
    have := ih (rlInsert store uid ⟨k + 1, r⟩) (k + 1) hnext
      (fun t' ht' => hts t' (by simp [ht']))
    simpa [Nat.add_assoc, Nat.add_comm 1 ts.length] using this

/-- The rate-limit store after a first call at `t0` for `uid` on the empty
map, followed by further calls at the times in `ts`. -/
def storeAfterCalls (uid : String) (t0 : Nat) (ts : List Nat) : RLStore :=
  runCalls uid DEFAULT_RATE_LIMIT
    (checkRateLimit [] uid t0 DEFAULT_RATE_LIMIT).2 ts

/-- C3: with the default configuration (N = 100, W = 60000 ms), after a
first call at `t0` and 99 further calls inside the window, the 101st
in-window call returns `allowed = false` and `remaining = 0`; the first
call at or after the window's `resetAt` installs a fresh window with
count 1 and returns `allowed = true`, `remaining = 99`. -/
theorem C3_window_exhaustion_and_reset (uid : String) (t0 : Nat)
    (ts : List Nat) (tN tf : Nat)
    (hlen : ts.length = 99)
    (hwin : ∀ t ∈ ts, t < t0 + 60000)
    (hN : tN < t0 + 60000)
    (hf : t0 + 60000 ≤ tf) :
    (checkRateLimit (storeAfterCalls uid t0 ts) uid tN
        DEFAULT_RATE_LIMIT).1 = ⟨false, 0, t0 + 60000⟩ ∧
    (checkRateLimit (checkRateLimit (storeAfterCalls uid t0 ts) uid tN
        DEFAULT_RATE_LIMIT).2 uid tf DEFAULT_RATE_LIMIT).1 =
      ⟨true, 99, tf + 60000⟩ ∧
    rlLookup (checkRateLimit (checkRateLimit (storeAfterCalls uid t0 ts)
        uid tN DEFAULT_RATE_LIMIT).2 uid tf DEFAULT_RATE_LIMIT).2 uid =
      some ⟨1, tf + 60000⟩ := by
  have h0 : rlLookup ([] : RLStore) uid = none := rfl
  have h1 := checkRateLimit_none [] uid t0 DEFAULT_RATE_LIMIT h0
  have h1' : rlLookup (checkRateLimit [] uid t0 DEFAULT_RATE_LIMIT).2 uid =
      some ⟨1, t0 + 60000⟩ := by
    rw [h1]
    exact rlLookup_rlInsert_self [] uid ⟨1, t0 + 60000⟩
  have h100 : rlLookup (storeAfterCalls uid t0 ts) uid =
      some ⟨100, t0 + 60000⟩ := by
    have := runCalls_entry uid DEFAULT_RATE_LIMIT (t0 + 60000) ts
      (checkRateLimit [] uid t0 DEFAULT_RATE_LIMIT).2 1 h1' hwin
    rw [storeAfterCalls, this, hlen]
  have h101 := checkRateLimit_inWindow (storeAfterCalls uid t0 ts) uid tN
    DEFAULT_RATE_LIMIT ⟨100, t0 + 60000⟩ h100 hN
  have hstore101 : rlLookup (checkRateLimit (storeAfterCalls uid t0 ts) uid
      tN DEFAULT_RATE_LIMIT).2 uid = some ⟨101, t0 + 60000⟩ := by
    rw [h101]
    exact rlLookup_rlInsert_self _ uid ⟨101, t0 + 60000⟩
  have hfresh := checkRateLimit_expired
    (checkRateLimit (storeAfterCalls uid t0 ts) uid tN DEFAULT_RATE_LIMIT).2
    uid tf DEFAULT_RATE_LIMIT ⟨101, t0 + 60000⟩ hstore101 hf
  refine ⟨by rw [h101]; rfl, by rw [hfresh]; rfl, ?_⟩
  rw [hfresh]
  exact rlLookup_rlInsert_self _ uid ⟨1, tf + 60000⟩

/-- C3 witness: a concrete identity making 100 calls at time 0, a 101st
call at time 0, and a fresh call at time 60000. -/
theorem C3_window_exhaustion_and_reset_witness :
    (checkRateLimit (storeAfterCalls "u" 0 (List.replicate 99 0)) "u" 0
        DEFAULT_RATE_LIMIT).1 = ⟨false, 0, 0 + 60000⟩ ∧
    (checkRateLimit (checkRateLimit (storeAfterCalls "u" 0
        (List.replicate 99 0)) "u" 0 DEFAULT_RATE_LIMIT).2 "u" 60000
        DEFAULT_RATE_LIMIT).1 = ⟨true, 99, 60000 + 60000⟩ ∧
    rlLookup (checkRateLimit (checkRateLimit (storeAfterCalls "u" 0
        (List.replicate 99 0)) "u" 0 DEFAULT_RATE_LIMIT).2 "u" 60000
        DEFAULT_RATE_LIMIT).2 "u" = some ⟨1, 60000 + 60000⟩ :=
  C3_window_exhaustion_and_reset "u" 0 (List.replicate 99 0) 0 60000
    (by decide) (by decide) (by decide) (by decide)

/-- C8: a call inside a live window increments the stored count even when
the result is a rejection, and once a call is rejected every further call
inside the same window is rejected with `remaining = 0` and the same
`resetAt`. -/
theorem C8_rejected_calls_consume_budget (store : RLStore) (uid : String)
    (now : Nat) (cfg : RateLimitConfig) (e : RLEntry)
    (he : rlLookup store uid = some e) (hin : now < e.resetAt) :
    rlLookup (checkRateLimit store uid now cfg).2 uid =
      some ⟨e.count + 1, e.resetAt⟩ ∧
    ((checkRateLimit store uid now cfg).1.allowed = false →
      ∀ (ts : List Nat) (tLater : Nat),
        (∀ t ∈ ts, t < e.resetAt) → tLater < e.resetAt →
        (checkRateLimit (runCalls uid cfg (checkRateLimit store uid now cfg).2
            ts) uid tLater cfg).1 = ⟨false, 0, e.resetAt⟩) := by
  have hstep := checkRateLimit_inWindow store uid now cfg e he hin
  constructor
  · rw [hstep]
    exact rlLookup_rlInsert_self store uid ⟨e.count + 1, e.resetAt⟩
  · intro hrej ts tLater hts htL
    have hgt : cfg.maxRequests < e.count + 1 := by
      rw [hstep] at hrej
      simpa using Nat.lt_of_not_le (by simpa using hrej)
    have hentry : rlLookup (checkRateLimit store uid now cfg).2 uid =
        some ⟨e.count + 1, e.resetAt⟩ := by
      rw [hstep]
      exact rlLookup_rlInsert_self store uid ⟨e.count + 1, e.resetAt⟩
    have hafter := runCalls_entry uid cfg e.resetAt ts
      (checkRateLimit store uid now cfg).2 (e.count + 1) hentry hts
    have hlast := checkRateLimit_inWindow _ uid tLater cfg
      ⟨e.count + 1 + ts.length, e.resetAt⟩ hafter htL
    rw [hlast]
    have hgt2 : cfg.maxRequests < e.count + 1 + ts.length + 1 :=
      lt_of_lt_of_le hgt (by omega)
    simp [Nat.not_le.mpr hgt2, Nat.sub_eq_zero_of_le (le_of_lt hgt2)]

/-- C8 witness: an identity whose window already holds 100 requests; the
rejected call at time 0 raises the count to 101, and calls at times 1
and 2 inside the window stay rejected with `remaining = 0`. -/
theorem C8_rejected_calls_consume_budget_witness :
    rlLookup (checkRateLimit [("u", ⟨100, 50⟩)] "u" 0
        DEFAULT_RATE_LIMIT).2 "u" = some ⟨101, 50⟩ ∧
    (checkRateLimit (runCalls "u" DEFAULT_RATE_LIMIT
        (checkRateLimit [("u", ⟨100, 50⟩)] "u" 0 DEFAULT_RATE_LIMIT).2 [1])
        "u" 2 DEFAULT_RATE_LIMIT).1 = ⟨false, 0, 50⟩ := by
  have h := C8_rejected_calls_consume_budget [("u", ⟨100, 50⟩)] "u" 0
    DEFAULT_RATE_LIMIT ⟨100, 50⟩ (by decide) (by decide)
  exact ⟨h.1, h.2 (by decide) [1] 2 (by decide) (by decide)⟩

/-! ## Fleet scan lemmas -/

/-- The contribution of one loop iteration of the fleet scan for
repository `r`, stated as an order-preserving projection: `none` when the
probe threw, answered 404 (Pages disabled) or answered any other non-ok
status; the pushed summary when it answered ok. -/
def siteOfProbe (username : String) (probes : String → ProbeOutcome)
    (r : String) : Option PagesSite :=
  match probes r with
  | .thrown => none
  | .resp status info =>
    if status = 404 then none
    else if respOk status then some (mkPagesSite username r info)
    else none

/-- The collected sites are the `filterMap` of the per-repository
projection over the listing, in listing order. -/
theorem scanRepos_fst_filterMap (username : String)
    (probes : String → ProbeOutcome) (repos : List String) :
    (scanRepos username probes repos).1 =
      repos.filterMap (siteOfProbe username probes) := by
  induction repos with
  | nil => rfl
  | cons r rest ih =>
    cases hp : probes r with
    | thrown => simp [scanRepos, siteOfProbe, hp, ih]
    | resp status info =>
      by_cases h4 : status = 404
      · simp [scanRepos, siteOfProbe, hp, h4, ih]
      · by_cases hok : respOk status
        · simp [scanRepos, siteOfProbe, hp, h4, hok, ih]
        · simp [scanRepos, siteOfProbe, hp, h4, hok, ih]

/-- The scan's probe trace is exactly the listing, in order. -/
theorem scanRepos_trace (username : String)
    (probes : String → ProbeOutcome) (repos : List String) :
    (scanRepos username probes repos).2 = repos := by
  induction repos with
  | nil => rfl
  | cons r rest ih =>
    cases hp : probes r with
    | thrown => simp [scanRepos, hp, ih]
    | resp status info =>
      by_cases h4 : status = 404
      · simp [scanRepos, hp, h4, ih]
      · by_cases hok : respOk status
        · simp [scanRepos, hp, h4, hok, ih]
        · simp [scanRepos, hp, h4, hok, ih]

/-- A listed repository whose probe answers ok contributes its summary. -/
theorem mem_scanRepos_of_ok (username : String)
    (probes : String → ProbeOutcome) (repos : List String)
    (r : String) (s : Nat) (i : PagesInfo)
    (hr : r ∈ repos) (hp : probes r = .resp s i) (hok : respOk s = true) :
    mkPagesSite username r i ∈ (scanRepos username probes repos).1 := by
  rw [scanRepos_fst_filterMap]
  refine List.mem_filterMap.mpr ⟨r, hr, ?_⟩
  have h404 : s ≠ 404 := by
    intro h
    rw [h] at hok
    exact absurd hok (by decide)
  simp [siteOfProbe, hp, h404, hok]

/-- Every collected site names a repository whose probe answered ok. -/
theorem scanRepos_mem_inv (username : String)
    (probes : String → ProbeOutcome) (repos : List String) (site : PagesSite)
    (hmem : site ∈ (scanRepos username probes repos).1) :
    ∃ s i, probes site.repository = .resp s i ∧ respOk s = true := by
  rw [scanRepos_fst_filterMap] at hmem
  obtain ⟨r, hr, hf⟩ := List.mem_filterMap.mp hmem
  unfold siteOfProbe at hf
  cases hp : probes r with
  | thrown => rw [hp] at hf; simp at hf
  | resp s i =>
    rw [hp] at hf
    by_cases h4 : s = 404
    · simp [h4] at hf
    · by_cases hok : respOk s
      · simp [h4, hok] at hf
        refine ⟨s, i, ?_, hok⟩
        rw [← hf]
        exact hp
      · simp [h4, hok] at hf

/-- Once validation, auth, the rate check, profile resolution and the
repository listing succeed, the list-pages-sites handler returns 200 with
the scan's sites, the post-check rate store, and the scan's probe trace. -/
theorem listPagesSites_scan (env : LPSEnv) (store : RLStore)
    (uid tok username : String) (repos : List String)
    (hbody : env.bodyOk = true) (htok : env.provider_token = some tok)
    (hne : tok.length ≠ 0) (hauth : env.authUser = some uid)
    (hallowed : (checkRateLimit store uid env.now
        DEFAULT_RATE_LIMIT).1.allowed = true)
    (hprof : env.profile = some username) (hune : username ≠ "")
    (hrep : env.reposResult = .ok repos) :
    listPagesSites env store =
      ⟨⟨200, .sites (scanRepos username env.probes repos).1⟩,
       (checkRateLimit store uid env.now DEFAULT_RATE_LIMIT).2,
       (scanRepos username env.probes repos).2⟩ := by
  unfold listPagesSites
  rw [hbody, htok, hauth, hprof, hrep]
  simp [hne, hallowed, hune]

/-! ## Claim theorems for the handlers -/

/-- A sample Pages API body used by the concrete witnesses. -/
def sampleInfo : PagesInfo :=
  ⟨some ⟨some "gh-pages", some "/"⟩, some "https://alice.github.io/blog",
   some "built", some "2024-05-01T00:00:00Z", none⟩

/-- An empty Pages API body. -/
def emptyInfo : PagesInfo := ⟨none, none, none, none, none⟩

/-- C1: in a fleet scan where one listed repository probes ok and another
listed repository's probe fails (non-ok non-404 status or a thrown fetch),
the handler still returns 200 with a sites array containing the enabled
repository's summary and no entry for the failing repository. -/
theorem C1_probe_failure_isolated (env : LPSEnv) (store : RLStore)
    (uid tok username : String) (repos : List String) (a b : String)
    (sa : Nat) (ia : PagesInfo)
    (hbody : env.bodyOk = true) (htok : env.provider_token = some tok)
    (hne : tok.length ≠ 0) (hauth : env.authUser = some uid)
    (hallowed : (checkRateLimit store uid env.now
        DEFAULT_RATE_LIMIT).1.allowed = true)
    (hprof : env.profile = some username) (hune : username ≠ "")
    (hrep : env.reposResult = .ok repos)
    (ha : a ∈ repos) (hpa : env.probes a = .resp sa ia)
    (hok : respOk sa = true)
    (hb : b ∈ repos)
    (hfail : env.probes b = .thrown ∨
      ∃ sb ib, env.probes b = .resp sb ib ∧ respOk sb = false ∧ sb ≠ 404) :
    (listPagesSites env store).resp =
      ⟨200, .sites (scanRepos username env.probes repos).1⟩ ∧
    mkPagesSite username a ia ∈ (scanRepos username env.probes repos).1 ∧
    (∀ site ∈ (scanRepos username env.probes repos).1,
      site.repository ≠ b) := by
  refine ⟨?_, ?_, ?_⟩
  · rw [listPagesSites_scan env store uid tok username repos hbody htok hne
      hauth hallowed hprof hune hrep]
  · exact mem_scanRepos_of_ok username env.probes repos a sa ia ha hpa hok
  · intro site hmem hrb
    obtain ⟨s, i, hp, hok'⟩ :=
      scanRepos_mem_inv username env.probes repos site hmem
    rw [hrb] at hp
    rcases hfail with hth | ⟨sb, ib, hbp, hbf, _⟩
    · rw [hth] at hp
      exact ProbeOutcome.noConfusion hp
    · rw [hbp] at hp
      obtain ⟨hs, _⟩ := ProbeOutcome.resp.inj hp
      rw [hs] at hbf
      rw [hok'] at hbf
      exact Bool.noConfusion hbf

/-- Concrete environment for the C1 witness: `blog` probes ok (200),
`secret` probes 500. -/
def C1env : LPSEnv :=
  { bodyOk := true
    provider_token := some "tok"
    authUser := some "user-1"
    now := 0
    profile := some "alice"
    reposResult := .ok ["blog", "secret"]
    probes := fun r =>
      if r = "blog" then .resp 200 sampleInfo else .resp 500 emptyInfo }

/-- C1 witness: the concrete two-repository scan of `C1env`. -/
theorem C1_probe_failure_isolated_witness :
    (listPagesSites C1env []).resp =
      ⟨200, .sites (scanRepos "alice" C1env.probes ["blog", "secret"]).1⟩ ∧
    mkPagesSite "alice" "blog" sampleInfo ∈
      (scanRepos "alice" C1env.probes ["blog", "secret"]).1 := by
  have h := C1_probe_failure_isolated C1env [] "user-1" "tok" "alice"
    ["blog", "secret"] "blog" "secret" 200 sampleInfo rfl rfl (by decide)
    rfl (by decide) rfl (by decide) rfl (by decide) (by decide) (by decide)
    (by decide)
    (Or.inr ⟨500, emptyInfo, by decide, by decide, by decide⟩)
  exact ⟨h.1, h.2.1⟩

/-- C2: a get-pages-info request that passes validation, auth, the rate
check and the ownership check maps an upstream 404 to HTTP 200 with
`{enabled: false}` — never an error response. -/
theorem C2_upstream_notfound_maps_to_disabled (env : GPIEnv)
    (store : RLStore) (uid username raw : String) (info : PagesInfo)
    (hbody : env.bodyOk = true) (hvalid : env.valid = true)
    (hauth : env.authUser = some uid)
    (hallowed : (checkRateLimit store uid env.now
        DEFAULT_RATE_LIMIT).1.allowed = true)
    (hprof : env.profile = some username) (hune : username ≠ "")
    (hown : env.owner = username)
    (hup : env.upstream = .resp 404 raw info) :
    (getPagesInfo env store).resp = ⟨200, .notEnabled⟩ := by
  unfold getPagesInfo
  rw [hbody, hvalid, hauth, hprof, hup]
  simp [hallowed, hune, hown]

/-- Concrete environment for the C2 witness. -/
def C2env : GPIEnv :=
  { bodyOk := true
    valid := true
    owner := "alice"
    authUser := some "user-1"
    now := 0
    profile := some "alice"
    upstream := .resp 404 "Not Found" emptyInfo }

/-- C2 witness: the concrete 404 request of `C2env`. -/
theorem C2_upstream_notfound_maps_to_disabled_witness :
    (getPagesInfo C2env []).resp = ⟨200, .notEnabled⟩ :=
  C2_upstream_notfound_maps_to_disabled C2env [] "user-1" "alice"
    "Not Found" emptyInfo rfl rfl rfl (by decide) rfl (by decide) rfl rfl

/-- C4: a get-pages-info or enable-github-pages request whose owner field
differs from the resolved account name is answered 403 before any
upstream call is issued. -/
theorem C4_ownership_mismatch_rejected_before_upstream
    (envG : GPIEnv) (envE : EGPEnv) (store : RLStore)
    (uidG uidE userG userE : String)
    (hGbody : envG.bodyOk = true) (hGvalid : envG.valid = true)
    (hGauth : envG.authUser = some uidG)
    (hGallowed : (checkRateLimit store uidG envG.now
        DEFAULT_RATE_LIMIT).1.allowed = true)
    (hGprof : envG.profile = some userG) (hGune : userG ≠ "")
    (hGown : envG.owner ≠ userG)
    (hEbody : envE.bodyOk = true) (hEvalid : envE.valid = true)
    (hEauth : envE.authUser = some uidE)
    (hEallowed : (checkRateLimit store uidE envE.now
        DEFAULT_RATE_LIMIT).1.allowed = true)
    (hEprof : envE.profile = some userE) (hEune : userE ≠ "")
    (hEown : envE.owner ≠ userE) :
    ((getPagesInfo envG store).resp.status = 403 ∧
     (getPagesInfo envG store).upstreamCalled = false) ∧
    ((enableGitHubPages envE store).resp.status = 403 ∧
     (enableGitHubPages envE store).upstreamCalled = false) := by
  constructor
  · unfold getPagesInfo
    rw [hGbody, hGvalid, hGauth, hGprof]
    simp [hGallowed, hGune, hGown]
  · unfold enableGitHubPages
    rw [hEbody, hEvalid, hEauth, hEprof]
    simp [hEallowed, hEune, hEown]

/-- Cross-account get-pages-info request for the C4 witness. -/
def C4envG : GPIEnv :=
  { bodyOk := true
    valid := true
    owner := "mallory"
    authUser := some "user-1"
    now := 0
    profile := some "alice"
    upstream := .resp 200 "" emptyInfo }

/-- Cross-account enable-github-pages request for the C4 witness. -/
def C4envE : EGPEnv :=
  { bodyOk := true
    valid := true
    owner := "mallory"
    authUser := some "user-2"
    now := 0
    profile := some "alice"
    upstream := .resp 200 "" emptyInfo }

/-- C4 witness: both concrete cross-account requests are answered 403 with
no upstream call. -/
theorem C4_ownership_mismatch_rejected_before_upstream_witness :
    ((getPagesInfo C4envG []).resp.status = 403 ∧
     (getPagesInfo C4envG []).upstreamCalled = false) ∧
    ((enableGitHubPages C4envE []).resp.status = 403 ∧
     (enableGitHubPages C4envE []).upstreamCalled = false) :=
  C4_ownership_mismatch_rejected_before_upstream C4envG C4envE []
    "user-1" "user-2" "alice" "alice" rfl rfl rfl (by decide) rfl
    (by decide) (by decide) rfl rfl rfl (by decide) rfl (by decide)
    (by decide)

/-- C5: when the repository listing itself fails, the handler returns the
sanitized error and probes no repository at all. -/
theorem C5_listing_failure_fatal_no_probes (env : LPSEnv) (store : RLStore)
    (uid tok username : String) (st : Nat) (raw : String)
    (hbody : env.bodyOk = true) (htok : env.provider_token = some tok)
    (hne : tok.length ≠ 0) (hauth : env.authUser = some uid)
    (hallowed : (checkRateLimit store uid env.now
        DEFAULT_RATE_LIMIT).1.allowed = true)
    (hprof : env.profile = some username) (hune : username ≠ "")
    (hrep : env.reposResult = .error (st, raw)) :
    (listPagesSites env store).resp =
      ⟨(sanitizeGitHubError st raw).status,
       .errMsg (sanitizeGitHubError st raw).message⟩ ∧
    (listPagesSites env store).probed = [] := by
  unfold listPagesSites
  rw [hbody, htok, hauth, hprof, hrep]
  simp [hne, hallowed, hune]

/-- Failing-listing environment for the C5 witness. -/
def C5env : LPSEnv :=
  { bodyOk := true
    provider_token := some "tok"
    authUser := some "user-1"
    now := 0
    profile := some "alice"
    reposResult := .error (500, "backend exploded")
    probes := fun _ => .thrown }

/-- C5 witness: the concrete failing listing of `C5env`. -/
theorem C5_listing_failure_fatal_no_probes_witness :
    (listPagesSites C5env []).resp =
      ⟨(sanitizeGitHubError 500 "backend exploded").status,
       .errMsg (sanitizeGitHubError 500 "backend exploded").message⟩ ∧
    (listPagesSites C5env []).probed = [] :=
  C5_listing_failure_fatal_no_probes C5env [] "user-1" "tok" "alice" 500
    "backend exploded" rfl rfl (by decide) rfl (by decide) rfl (by decide)
    rfl

/-- C6: a successful scan probes every repository of the listing exactly
once, in listing order — none is left unprobed. -/
theorem C6_every_listed_repo_probed (env : LPSEnv) (store : RLStore)
    (uid tok username : String) (repos : List String)
    (hbody : env.bodyOk = true) (htok : env.provider_token = some tok)
    (hne : tok.length ≠ 0) (hauth : env.authUser = some uid)
    (hallowed : (checkRateLimit store uid env.now
        DEFAULT_RATE_LIMIT).1.allowed = true)
    (hprof : env.profile = some username) (hune : username ≠ "")
    (hrep : env.reposResult = .ok repos) :
    (listPagesSites env store).probed = repos := by
  rw [listPagesSites_scan env store uid tok username repos hbody htok hne
    hauth hallowed hprof hune hrep]
  exact scanRepos_trace username env.probes repos

/-- Three-repository environment for the C6 witness (the §8 scenario:
`blog` enabled, `tools` unconfigured, `secret` times out). -/
def C6env : LPSEnv :=
  { bodyOk := true
    provider_token := some "tok"
    authUser := some "user-1"
    now := 0
    profile := some "alice"
    reposResult := .ok ["blog", "tools", "secret"]
    probes := fun r =>
      if r = "blog" then .resp 200 sampleInfo
      else if r = "tools" then .resp 404 emptyInfo
      else .thrown }

/-- C6 witness: the concrete three-repository scan of `C6env`. -/
theorem C6_every_listed_repo_probed_witness :
    (listPagesSites C6env []).probed = ["blog", "tools", "secret"] :=
  C6_every_listed_repo_probed C6env [] "user-1" "tok" "alice"
    ["blog", "tools", "secret"] rfl rfl (by decide) rfl (by decide) rfl
    (by decide) rfl

/-- C7: the sanitizer's output is independent of the raw upstream body (so
the generic message never contains it), and it maps 404 to outward 404,
401/403 to outward 403, 422 to outward 400, and everything else to
outward 502, each with one fixed generic message. -/
theorem C7_sanitizer_fixed_mapping (status : Nat) (raw : String) :
    sanitizeGitHubError status raw = sanitizeGitHubError status "" ∧
    sanitizeGitHubError 404 raw = ⟨404, "Resource not found"⟩ ∧
    sanitizeGitHubError 401 raw =
      ⟨403, "Insufficient permissions for this operation"⟩ ∧
    sanitizeGitHubError 403 raw =
      ⟨403, "Insufficient permissions for this operation"⟩ ∧
    sanitizeGitHubError 422 raw = ⟨400, "Invalid request"⟩ ∧
    (status ≠ 401 → status ≠ 403 → status ≠ 404 → status ≠ 422 →
      sanitizeGitHubError status raw = ⟨502, "Upstream error"⟩) := by
  refine ⟨rfl, rfl, rfl, rfl, rfl, ?_⟩
  intro h1 h3 h4 h22
  simp [sanitizeGitHubError, h1, h3, h4, h22]

/-- C7 witness: a concrete unmapped status with a sensitive raw body. -/
theorem C7_sanitizer_fixed_mapping_witness :
    sanitizeGitHubError 500 "token ghp_secret" =
      sanitizeGitHubError 500 "" ∧
    sanitizeGitHubError 404 "token ghp_secret" =
      ⟨404, "Resource not found"⟩ ∧
    sanitizeGitHubError 500 "token ghp_secret" =
      ⟨502, "Upstream error"⟩ := by
  have h := C7_sanitizer_fixed_mapping 500 "token ghp_secret"
  exact ⟨h.1, h.2.1,
    h.2.2.2.2.2 (by decide) (by decide) (by decide) (by decide)⟩

/-- C9: the fleet scan's collected sites are the order-preserving
projection of the listing — `Disabled` (404) and failing repositories are
dropped and the enabled summaries keep listing order, with no re-sort. -/
theorem C9_scan_is_ordered_projection (username : String)
    (probes : String → ProbeOutcome) (repos : List String) :
    (scanRepos username probes repos).1 =
      repos.filterMap (siteOfProbe username probes) :=
  scanRepos_fst_filterMap username probes repos

/-- Every branch of `checkRateLimit` produces its new store by a single
insert at the caller's key. -/
theorem checkRateLimit_snd_insert (store : RLStore) (uid : String)
    (now : Nat) (cfg : RateLimitConfig) :
    ∃ e, (checkRateLimit store uid now cfg).2 = rlInsert store uid e :=
  ⟨_, rfl⟩

/-- C10: one list-pages-sites request past auth consumes exactly one rate
unit — the final store is that of a single `checkRateLimit` call,
regardless of the listing and probes; other identities' windows are
untouched and the caller's in-window count rises by exactly 1. -/
theorem C10_one_rate_unit_per_scan (env : LPSEnv) (store : RLStore)
    (uid tok : String)
    (hbody : env.bodyOk = true) (htok : env.provider_token = some tok)
    (hne : tok.length ≠ 0) (hauth : env.authUser = some uid) :
    (listPagesSites env store).store =
      (checkRateLimit store uid env.now DEFAULT_RATE_LIMIT).2 ∧
    (∀ other : String, other ≠ uid →
      rlLookup (listPagesSites env store).store other =
        rlLookup store other) ∧
    (∀ e : RLEntry, rlLookup store uid = some e → env.now < e.resetAt →
      rlLookup (listPagesSites env store).store uid =
        some ⟨e.count + 1, e.resetAt⟩) := by
  have hstore : (listPagesSites env store).store =
      (checkRateLimit store uid env.now DEFAULT_RATE_LIMIT).2 := by
    unfold listPagesSites
    rw [hbody, htok, hauth]
    simp only [Bool.not_true, Bool.false_eq_true, if_false, if_neg hne]
    rcases hA : (checkRateLimit store uid env.now DEFAULT_RATE_LIMIT).1.allowed
    · simp [hA]
    · rcases hP : env.profile with _ | username
      · simp [hA, hP]
      · rcases hR : env.reposResult with ⟨st, raw⟩ | repos
        · by_cases hU : username = "" <;> simp [hA, hP, hR, hU]
        · by_cases hU : username = "" <;> simp [hA, hP, hR, hU]
  refine ⟨hstore, ?_, ?_⟩
  · intro other hother
    rw [hstore]
    obtain ⟨e, he⟩ :=
      checkRateLimit_snd_insert store uid env.now DEFAULT_RATE_LIMIT
    rw [he]
    exact rlLookup_rlInsert_ne store uid e other hother
  · intro e he hin
    rw [hstore,
      checkRateLimit_inWindow store uid env.now DEFAULT_RATE_LIMIT e he hin]
    exact rlLookup_rlInsert_self store uid ⟨e.count + 1, e.resetAt⟩

/-- Environment for the C10 witness (two repositories listed). -/
def C10env : LPSEnv :=
  { bodyOk := true
    provider_token := some "tok"
    authUser := some "user-1"
    now := 0
    profile := some "alice"
    reposResult := .ok ["blog", "tools"]
    probes := fun _ => .resp 200 sampleInfo }

/-- C10 witness: a concrete request against a store holding a live window
for the caller and a window for another identity. -/
theorem C10_one_rate_unit_per_scan_witness :
    (listPagesSites C10env [("user-1", ⟨5, 100⟩), ("other", ⟨7, 100⟩)]).store =
      (checkRateLimit [("user-1", ⟨5, 100⟩), ("other", ⟨7, 100⟩)] "user-1" 0
        DEFAULT_RATE_LIMIT).2 ∧
    rlLookup (listPagesSites C10env
        [("user-1", ⟨5, 100⟩), ("other", ⟨7, 100⟩)]).store "other" =
      rlLookup [("user-1", ⟨5, 100⟩), ("other", ⟨7, 100⟩)] "other" ∧
    rlLookup (listPagesSites C10env
        [("user-1", ⟨5, 100⟩), ("other", ⟨7, 100⟩)]).store "user-1" =
      some ⟨6, 100⟩ := by
  have h := C10_one_rate_unit_per_scan C10env
    [("user-1", ⟨5, 100⟩), ("other", ⟨7, 100⟩)] "user-1" "tok" rfl rfl
    (by decide) rfl
  exact ⟨h.1, h.2.1 "other" (by decide), h.2.2 ⟨5, 100⟩ (by decide)
    (by decide)⟩

end PagesProxy
